import Mathlib

/-!
Shallow embedding of the banking admin application (src/app.py): the data
model (Admin, Customer), the session/auth gate, and the route handlers the
specification's claims are about.  Handlers are pure functions from a form
and a database state to a response and a new state.  Werkzeug password
hashing is modelled abstractly as a salted record that `check_password_hash`
compares; Python form access (`request.form.get`) is modelled with
`Option String` and Python truthiness with `truthy`.
-/

/-- Werkzeug digest model: `generate_password_hash` embeds a random salt, so
the digest is modelled as the salt together with the hashed content; the
hash is abstract (one-way-ness is irrelevant to the claims), only the
`check_password_hash` round-trip behaviour matters. -/
structure HashedPassword where
  salt : Nat
  content : String
deriving Repr, DecidableEq

/-- generate_password_hash(plaintext): the salt is drawn by the caller side
of the model (a parameter of every handler that hashes). -/
def generate_password_hash (plaintext : String) (salt : Nat) : HashedPassword :=
  ⟨salt, plaintext⟩

/-- check_password_hash(stored, plaintext): recomputes with the embedded
salt and compares. -/
def check_password_hash (stored : HashedPassword) (plaintext : String) : Bool :=
  stored.content == plaintext

/-- Admin model row (src/app.py lines 15-20); created_at carries no
claim-relevant information and is omitted. -/
structure Admin where
  id : Nat
  username : String
  email : String
  password : HashedPassword
deriving Repr, DecidableEq

/-- Customer model row (src/app.py lines 22-31).  `balance` is a Float
column; no claim computes with balances, so the model carries the accepted
numeric literal.  `status` is nullable at the SQL level (customer_edit can
assign the absent form value), hence `Option String`. -/
structure Customer where
  id : Nat
  full_name : String
  email : String
  password : HashedPassword
  bank_account_number : String
  account_type : String
  balance : String
  status : Option String
deriving Repr, DecidableEq

/-- The two backing tables of the credential store. -/
structure BankState where
  admins : List Admin
  customers : List Customer
deriving Repr, DecidableEq

/-- Flask session contents set at login: user_id, username, user_role. -/
structure Session where
  user_id : Nat
  username : String
  user_role : String
deriving Repr, DecidableEq

/-- Outcome of a handler: a redirect or a render (each carrying the flash
notices enqueued on the way), a 404 from get_or_404, or an unhandled
exception escaping the handler. -/
inductive Response where
  | redirect (target : String) (notices : List (String × String))
  | render (template : String) (notices : List (String × String))
  | notFound
  | serverError (exc : String)
deriving Repr, DecidableEq

/-- Python truthiness of request.form.get results: None and the empty
string are falsy. -/
def truthy (o : Option String) : Bool :=
  match o with
  | some s => !s.isEmpty
  | none => false

/-- Python `x or d` for a form value: the default replaces None and "". -/
def pyOr (o : Option String) (d : String) : String :=
  match o with
  | some s => if s.isEmpty then d else s
  | none => d

/-- Decimal core of the Python float() literal grammar: optional sign, then
digits with at most one dot and at least one digit.  Exponent, inf/nan,
underscore and surrounding-whitespace forms are omitted: no claim exercises
them. -/
def floatCore (s : String) : Bool :=
  let l := match s.data with
    | c :: rest => if c == '-' || c == '+' then rest else c :: rest
    | [] => []
  let intPart := l.takeWhile (fun c => c.isDigit)
  match l.dropWhile (fun c => c.isDigit) with
  | [] => !intPart.isEmpty
  | c :: rest => c == '.' && rest.all (fun d => d.isDigit) && !(intPart.isEmpty && rest.isEmpty)

/-- float(request.form.get('balance', 0)): an absent field defaults to 0; a
present field must parse as a float literal, otherwise float() raises
ValueError (modelled as `none`).  The accepted literal is kept verbatim. -/
def pyFloat? (o : Option String) : Option String :=
  match o with
  | none => some "0"
  | some s => if floatCore s then some s else none

/-- Fresh autoincrement primary key: one past the largest id in use. -/
def nextFreeId (ids : List Nat) : Nat :=
  ids.foldr (fun a b => max a b) 0 + 1

/-- Customer branch of login (src/app.py lines 86-96): look up by email;
require existence, status 'active' and a verifying password; otherwise the
single uniform failure notice. -/
def loginCustomer (st : BankState) (username password : String) :
    Option Session × Response :=
  match st.customers.find? (fun c => c.email == username) with
  | some c =>
    if c.status == some "active" && check_password_hash c.password password then
      (some ⟨c.id, c.full_name, "customer"⟩,
       .redirect "customer_dashboard" [("Welcome, Customer!", "success")])
    else
      (none, .render "login.html" [("Invalid credentials or inactive account", "danger")])
  | none =>
    (none, .render "login.html" [("Invalid credentials or inactive account", "danger")])

/-- login POST (src/app.py lines 70-96): admin-by-username first, then
customer-by-email.  Returns the session established (if any) and the
response. -/
def login (st : BankState) (username password : String) :
    Option Session × Response :=
  match st.admins.find? (fun a => a.username == username) with
  | some admin =>
    if check_password_hash admin.password password then
      (some ⟨admin.id, admin.username, "admin"⟩,
       .redirect "admin_dashboard" [("Welcome, Admin!", "success")])
    else loginCustomer st username password
  | none => loginCustomer st username password

/-- Bool form of "the admin branch of login does not fire": no admin with
that username, or a non-verifying password. -/
def adminBranchRejects (st : BankState) (username password : String) : Bool :=
  match st.admins.find? (fun a => a.username == username) with
  | some a => !check_password_hash a.password password
  | none => true

/-- Bool form of "the customer branch of login does not fire": no customer
with that email, or inactive, or a non-verifying password. -/
def customerBranchRejects (st : BankState) (username password : String) : Bool :=
  match st.customers.find? (fun c => c.email == username) with
  | some c => !(c.status == some "active" && check_password_hash c.password password)
  | none => true

/-- login_required decorator (src/app.py lines 47-54): `some r` means the
guard intercepts with response r before the handler runs. -/
def login_required_check (sess : Option Session) : Option Response :=
  match sess with
  | none => some (.redirect "login" [("Please log in to access this page", "danger")])
  | some _ => none

/-- admin_required decorator (src/app.py lines 56-63): rejects when
user_role is absent or not 'admin'. -/
def admin_required_check (sess : Option Session) : Option Response :=
  match sess with
  | some s =>
    if s.user_role == "admin" then none
    else some (.redirect "dashboard" [("You do not have permission to access this page", "danger")])
  | none => some (.redirect "dashboard" [("You do not have permission to access this page", "danger")])

/-- Composition applied to every admin route: @login_required outermost,
then @admin_required, then the handler body. -/
def protected_admin (sess : Option Session) (body : Response) : Response :=
  match login_required_check sess with
  | some r => r
  | none =>
    match admin_required_check sess with
    | some r => r
    | none => body

/-- dashboard route (src/app.py lines 104-110): behind login_required,
dispatches on session role. -/
def dashboard (sess : Option Session) : Response :=
  match login_required_check sess with
  | some r => r
  | none =>
    if (sess.map (fun s => s.user_role)) == some "admin" then
      .redirect "admin_dashboard" []
    else
      .redirect "customer_dashboard" []

/-- admin_dashboard handler body (src/app.py lines 116-123); the counts it
renders carry no claim-relevant state change. -/
def admin_dashboard (_st : BankState) : Response :=
  .render "admin/dashboard.html" []

/-- The admin_dashboard route as served: both guards, then the body. -/
def admin_dashboard_route (sess : Option Session) (st : BankState) : Response :=
  protected_admin sess (admin_dashboard st)

/-- Startup seeding block (src/app.py lines 33-44): create the default
admin/admin123 account when no admin with username 'admin' exists. -/
def startup (st : BankState) (salt : Nat) : BankState :=
  match st.admins.find? (fun a => a.username == "admin") with
  | some _ => st
  | none =>
    { st with admins := st.admins ++
        [⟨nextFreeId (st.admins.map (fun a => a.id)), "admin", "admin@example.com",
          generate_password_hash "admin123" salt⟩] }

/-- Form fields read by admin_add (src/app.py lines 137-140). -/
structure AdminAddForm where
  username : Option String
  email : Option String
  password : Option String
  confirm_password : Option String
deriving Repr, DecidableEq

/-- Form fields read by admin_edit (src/app.py lines 180-182); it reads no
confirm_password. -/
structure AdminEditForm where
  username : Option String
  email : Option String
  password : Option String
deriving Repr, DecidableEq

/-- Form fields read by customer_add and customer_edit (src/app.py lines
240-246 and 290-296). -/
structure CustomerForm where
  full_name : Option String
  email : Option String
  password : Option String
  confirm_password : Option String
  account_type : Option String
  balance : Option String
  status : Option String
deriving Repr, DecidableEq

/-- admin_add POST (src/app.py lines 135-169): required fields, password
confirmation, duplicate username, duplicate email, then insert.  Both
uniqueness checks precede the commit, so the UNIQUE constraints on the
admin table cannot fire here. -/
def admin_add (f : AdminAddForm) (salt : Nat) (st : BankState) :
    Response × BankState :=
  if !truthy f.username || !truthy f.email || !truthy f.password then
    (.redirect "admin_add" [("All fields are required", "danger")], st)
  else if f.password != f.confirm_password then
    (.redirect "admin_add" [("Passwords do not match", "danger")], st)
  else if (st.admins.find? (fun a => a.username == f.username.getD "")).isSome then
    (.redirect "admin_add" [("Username already exists", "danger")], st)
  else if (st.admins.find? (fun a => a.email == f.email.getD "")).isSome then
    (.redirect "admin_add" [("Email already exists", "danger")], st)
  else
    (.redirect "admin_list" [("Admin created successfully", "success")],
     { st with admins := st.admins ++
         [⟨nextFreeId (st.admins.map (fun a => a.id)), f.username.getD "",
           f.email.getD "", generate_password_hash (f.password.getD "") salt⟩] })

/-- Test of `existing_admin and existing_admin.id != id`: some OTHER admin
(first match by username) already holds the username. -/
def otherAdminHasUsername (st : BankState) (id : Nat) (username : String) : Bool :=
  match st.admins.find? (fun a => a.username == username) with
  | some e => e.id != id
  | none => false

/-- Test of `existing_admin and existing_admin.id != id` for the email
lookup of admin_edit. -/
def otherAdminHasEmail (st : BankState) (id : Nat) (email : String) : Bool :=
  match st.admins.find? (fun a => a.email == email) with
  | some e => e.id != id
  | none => false

/-- admin_edit POST (src/app.py lines 173-209): get_or_404, required
fields, self-excluding duplicate checks, then in-place update; the password
is re-hashed only when the field is truthy. -/
def admin_edit (id : Nat) (f : AdminEditForm) (salt : Nat) (st : BankState) :
    Response × BankState :=
  match st.admins.find? (fun a => a.id == id) with
  | none => (.notFound, st)
  | some admin =>
    if !truthy f.username || !truthy f.email then
      (.redirect "admin_edit" [("Username and email are required", "danger")], st)
    else if otherAdminHasUsername st id (f.username.getD "") then
      (.redirect "admin_edit" [("Username already exists", "danger")], st)
    else if otherAdminHasEmail st id (f.email.getD "") then
      (.redirect "admin_edit" [("Email already exists", "danger")], st)
    else
      let updated : Admin :=
        { admin with
          username := f.username.getD "",
          email := f.email.getD "",
          password := if truthy f.password then
              generate_password_hash (f.password.getD "") salt
            else admin.password }
      (.redirect "admin_list" [("Admin updated successfully", "success")],
       { st with admins := st.admins.map (fun a => if a.id == id then updated else a) })

/-- admin_delete POST (src/app.py lines 211-225): get_or_404, the
self-delete guard against session['user_id'], then removal. -/
def admin_delete (sess_user_id : Nat) (id : Nat) (st : BankState) :
    Response × BankState :=
  match st.admins.find? (fun a => a.id == id) with
  | none => (.notFound, st)
  | some admin =>
    if admin.id == sess_user_id then
      (.redirect "admin_list" [("You cannot delete your own account", "danger")], st)
    else
      (.redirect "admin_list" [("Admin deleted successfully", "success")],
       { st with admins := st.admins.filter (fun a => a.id != id) })

/-- customer_add POST (src/app.py lines 238-281): float(balance) runs
before any validation and raises on a malformed field; then account-number
generation from the random draw, required fields, password confirmation,
duplicate email, and the commit, at which sqlite enforces the UNIQUE
constraints on email and bank_account_number (src/app.py lines 25-27). -/
def customer_add (f : CustomerForm) (salt : Nat) (draw : Nat) (st : BankState) :
    Response × BankState :=
  match pyFloat? f.balance with
  | none => (.serverError "ValueError", st)
  | some balance =>
    let bank_account_number := "ACC" ++ toString draw
    if !truthy f.full_name || !truthy f.email || !truthy f.account_type
        || !truthy f.password then
      (.redirect "customer_add"
        [("Name, email, password and account type are required", "danger")], st)
    else if f.password != f.confirm_password then
      (.redirect "customer_add" [("Passwords do not match", "danger")], st)
    else if (st.customers.find? (fun c => c.email == f.email.getD "")).isSome then
      (.redirect "customer_add" [("Email already exists", "danger")], st)
    else
      let new_customer : Customer :=
        { id := nextFreeId (st.customers.map (fun c => c.id)),
          full_name := f.full_name.getD "",
          email := f.email.getD "",
          password := generate_password_hash (f.password.getD "") salt,
          bank_account_number := bank_account_number,
          account_type := f.account_type.getD "",
          balance := balance,
          status := some (pyOr f.status "active") }
      if st.customers.any (fun c => c.email == new_customer.email) then
        (.serverError "IntegrityError", st)
      else if st.customers.any
          (fun c => c.bank_account_number == new_customer.bank_account_number) then
        (.serverError "IntegrityError", st)
      else
        (.redirect "customer_list" [("Customer created successfully", "success")],
         { st with customers := st.customers ++ [new_customer] })

/-- Test of `existing_customer and existing_customer.id != id` for the
email lookup of customer_edit. -/
def otherCustomerHasEmail (st : BankState) (id : Nat) (email : String) : Bool :=
  match st.customers.find? (fun c => c.email == email) with
  | some e => e.id != id
  | none => false

/-- customer_edit POST (src/app.py lines 283-326): get_or_404, then
float(balance) before any validation, required fields, the guarded password
confirmation (only when the password field is truthy), self-excluding
duplicate email, then the in-place update; status is assigned verbatim from
the form (possibly None), the password is re-hashed only when truthy. -/
def customer_edit (id : Nat) (f : CustomerForm) (salt : Nat) (st : BankState) :
    Response × BankState :=
  match st.customers.find? (fun c => c.id == id) with
  | none => (.notFound, st)
  | some customer =>
    match pyFloat? f.balance with
    | none => (.serverError "ValueError", st)
    | some balance =>
      if !truthy f.full_name || !truthy f.email || !truthy f.account_type then
        (.redirect "customer_edit"
          [("Name, email and account type are required", "danger")], st)
      else if truthy f.password && f.password != f.confirm_password then
        (.redirect "customer_edit" [("Passwords do not match", "danger")], st)
      else if otherCustomerHasEmail st id (f.email.getD "") then
        (.redirect "customer_edit" [("Email already exists", "danger")], st)
      else
        let updated : Customer :=
          { customer with
            full_name := f.full_name.getD "",
            email := f.email.getD "",
            account_type := f.account_type.getD "",
            balance := balance,
            status := f.status,
            password := if truthy f.password then
                generate_password_hash (f.password.getD "") salt
              else customer.password }
        (.redirect "customer_list" [("Customer updated successfully", "success")],
         { st with customers := st.customers.map (fun c => if c.id == id then updated else c) })

/-- customer_delete POST (src/app.py lines 328-336): get_or_404 then
unconditional removal. -/
def customer_delete (id : Nat) (st : BankState) : Response × BankState :=
  match st.customers.find? (fun c => c.id == id) with
  | none => (.notFound, st)
  | some _ =>
    (.redirect "customer_list" [("Customer deleted successfully", "success")],
     { st with customers := st.customers.filter (fun c => c.id != id) })

/-- Concrete records used to instantiate the theorems on sample states. -/
def adminRoot : Admin := ⟨1, "root", "root@bank.example", generate_password_hash "rootpw" 11⟩

/-- Second sample administrator. -/
def adminBob : Admin := ⟨2, "bob", "bob@bank.example", generate_password_hash "bobpw" 14⟩

/-- Sample active customer. -/
def custJane : Customer :=
  ⟨1, "Jane Doe", "jane@x.com", generate_password_hash "pw1" 12, "ACC12345", "savings", "100", some "active"⟩

/-- Sample inactive customer. -/
def custIvan : Customer :=
  ⟨2, "Ivan Idle", "ivan@x.com", generate_password_hash "pw2" 13, "ACC22222", "checking", "0", some "inactive"⟩

/-- Sample state with one administrator and two customers. -/
def stSample : BankState := ⟨[adminRoot], [custJane, custIvan]⟩

/-- Sample state with two administrators. -/
def stTwoAdmins : BankState := ⟨[adminRoot, adminBob], []⟩

/-- C1: the login operation implements the fixed-precedence algorithm:
admin-by-username first (verifying password establishes an admin session);
otherwise customer-by-email, succeeding only for an existing, active
customer with a verifying password; otherwise the single uniform notice
regardless of which check failed, in particular for an inactive customer
with the correct password. -/
theorem C1_login_fixed_precedence (st : BankState) (u p : String) :
    (∀ a, st.admins.find? (fun x => x.username == u) = some a →
      check_password_hash a.password p = true →
      login st u p = (some ⟨a.id, a.username, "admin"⟩,
        .redirect "admin_dashboard" [("Welcome, Admin!", "success")])) ∧
    (adminBranchRejects st u p = true →
      ∀ c, st.customers.find? (fun x => x.email == u) = some c →
        c.status = some "active" → check_password_hash c.password p = true →
        login st u p = (some ⟨c.id, c.full_name, "customer"⟩,
          .redirect "customer_dashboard" [("Welcome, Customer!", "success")])) ∧
    (adminBranchRejects st u p = true → customerBranchRejects st u p = true →
      login st u p = (none, .render "login.html"
        [("Invalid credentials or inactive account", "danger")])) ∧
    (adminBranchRejects st u p = true →
      ∀ c, st.customers.find? (fun x => x.email == u) = some c →
        c.status ≠ some "active" →
        login st u p = (none, .render "login.html"
          [("Invalid credentials or inactive account", "danger")])) := by
  refine ⟨?_, ?_, ?_, ?_⟩
  · intro a ha hchk
    simp [login, ha, hchk]
  · intro hrej c hc hstat hchk
    unfold adminBranchRejects at hrej
    unfold login
    cases hfa : st.admins.find? (fun x => x.username == u) with
    | none => simp [loginCustomer, hc, hstat, hchk]
    | some a =>
      rw [hfa] at hrej
      simp only [Bool.not_eq_true'] at hrej
      simp [hrej, loginCustomer, hc, hstat, hchk]
  · intro hrej hcrej
    unfold adminBranchRejects at hrej
    unfold customerBranchRejects at hcrej
    unfold login
    cases hfa : st.admins.find? (fun x => x.username == u) with
    | none =>
      unfold loginCustomer
      cases hfc : st.customers.find? (fun x => x.email == u) with
      | none => rfl
      | some c =>
        rw [hfc] at hcrej
        simp only [Bool.not_eq_true'] at hcrej
        simp [hcrej]
    | some a =>
      rw [hfa] at hrej
      simp only [Bool.not_eq_true'] at hrej
      unfold loginCustomer
      cases hfc : st.customers.find? (fun x => x.email == u) with
      | none => simp [hrej]
      | some c =>
        rw [hfc] at hcrej
        simp only [Bool.not_eq_true'] at hcrej
        simp [hrej, hcrej]
  · intro hrej c hc hstat
    unfold adminBranchRejects at hrej
    unfold login
    have hbeq : (c.status == some "active") = false := by
      simpa using hstat
    cases hfa : st.admins.find? (fun x => x.username == u) with
    | none => simp [loginCustomer, hc, hbeq]
    | some a =>
      rw [hfa] at hrej
      simp only [Bool.not_eq_true'] at hrej
      simp [hrej, loginCustomer, hc, hbeq]

/-- Witness for C1: on the sample state, an administrator with a verifying
password logs in with role admin, and the inactive customer fails with the
uniform notice even though the password is correct. -/
theorem C1_login_fixed_precedence_witness :
    login stSample "root" "rootpw" = (some ⟨1, "root", "admin"⟩,
      .redirect "admin_dashboard" [("Welcome, Admin!", "success")]) ∧
    login stSample "ivan@x.com" "pw2" = (none, .render "login.html"
      [("Invalid credentials or inactive account", "danger")]) := by
  constructor
  · exact (C1_login_fixed_precedence stSample "root" "rootpw").1 adminRoot (by decide) (by decide)
  · exact (C1_login_fixed_precedence stSample "ivan@x.com" "pw2").2.2.2
      (by decide) custIvan (by decide) (by decide)

/-- C2: for every protected admin route, a request with no session is
intercepted with the log-in notice and a redirect to login before the
handler body is consulted; an authenticated non-admin session is rejected
with the no-permission notice and sent to dashboard (not login), and for a
customer-role session the dashboard dispatch lands on the customer
dashboard. -/
theorem C2_admin_gate_order (body : Response) :
    (protected_admin none body
      = .redirect "login" [("Please log in to access this page", "danger")]) ∧
    (∀ s : Session, s.user_role ≠ "admin" →
      protected_admin (some s) body
        = .redirect "dashboard" [("You do not have permission to access this page", "danger")]) ∧
    (∀ s : Session, s.user_role ≠ "admin" →
      protected_admin (some s) body
        ≠ .redirect "login" [("Please log in to access this page", "danger")]) ∧
    (∀ s : Session, s.user_role = "customer" →
      dashboard (some s) = .redirect "customer_dashboard" []) := by
  refine ⟨rfl, ?_, ?_, ?_⟩
  · intro s hs
    simp [protected_admin, login_required_check, admin_required_check, hs]
  · intro s hs
    simp [protected_admin, login_required_check, admin_required_check, hs]
  · intro s hs
    simp [dashboard, login_required_check, hs]

/-- Witness for C2: concrete requests to the admin dashboard route with no
session and with a customer session. -/
theorem C2_admin_gate_order_witness :
    protected_admin none (admin_dashboard stSample)
      = .redirect "login" [("Please log in to access this page", "danger")] ∧
    protected_admin (some ⟨1, "Jane Doe", "customer"⟩) (admin_dashboard stSample)
      = .redirect "dashboard" [("You do not have permission to access this page", "danger")] ∧
    dashboard (some ⟨1, "Jane Doe", "customer"⟩) = .redirect "customer_dashboard" [] := by
  refine ⟨(C2_admin_gate_order (admin_dashboard stSample)).1, ?_, ?_⟩
  · exact (C2_admin_gate_order (admin_dashboard stSample)).2.1 ⟨1, "Jane Doe", "customer"⟩ (by decide)
  · exact (C2_admin_gate_order (admin_dashboard stSample)).2.2.2 ⟨1, "Jane Doe", "customer"⟩ rfl

/-- Replacing by primary key every record whose id is the id found by
find? leaves any projection of the table unchanged, provided ids are
nodup and the replacement agrees with the found record on the
projection. -/
theorem map_update_proj {α β : Type} (l : List α) (pid : α → Nat) (proj : α → β)
    (id : Nat) (orig upd : α)
    (hfind : l.find? (fun a => pid a == id) = some orig)
    (hnodup : (l.map pid).Nodup)
    (hproj : proj upd = proj orig) :
    (l.map (fun a => if pid a == id then upd else a)).map proj = l.map proj := by
  induction l with
  | nil => simp at hfind
  | cons x xs ih =>
    by_cases hx : pid x = id
    · have hbx : (pid x == id) = true := by simpa using hx
      have hox : x = orig := by
        have hthis := hfind
        rw [List.find?_cons, hbx] at hthis
        simpa using hthis
      have hnx : pid x ∉ xs.map pid := (List.nodup_cons.mp hnodup).1
      have htail : xs.map (fun a => if pid a == id then upd else a) = xs := by
        have hall : ∀ a ∈ xs, (if pid a == id then upd else a) = a := by
          intro a hmem
          have hne : (pid a == id) = false := by
            refine beq_eq_false_iff_ne.mpr ?_
            intro hcontra
            exact hnx (by rw [hx, ← hcontra]; exact List.mem_map_of_mem pid hmem)
          simp [hne]
        rw [List.map_congr_left hall]
        simp
      have hhead : (if pid x == id then upd else x) = upd := by simp [hbx]
      simp only [List.map_cons, hhead, htail]
      rw [hproj, hox]
    · have hbx : (pid x == id) = false := by simpa using hx
      have hfind2 : xs.find? (fun a => pid a == id) = some orig := by
        have hthis := hfind
        rw [List.find?_cons, hbx] at hthis
        simpa using hthis
      have hhead : (if pid x == id then upd else x) = x := by simp [hbx]
      simp only [List.map_cons, hhead]
      rw [ih hfind2 (List.nodup_cons.mp hnodup).2]

/-- C3: the delete-admin handler refuses to remove the record matching the
acting session identity and leaves the admin table unchanged; for a
different existing admin id it removes that record (no admin with the
target id survives) and keeps every other record. -/
theorem C3_self_delete_guard (uid id : Nat) (st : BankState) (a : Admin)
    (hfind : st.admins.find? (fun x => x.id == id) = some a) :
    (id = uid →
      admin_delete uid id st
        = (.redirect "admin_list" [("You cannot delete your own account", "danger")], st)) ∧
    (id ≠ uid →
      (admin_delete uid id st).1
          = .redirect "admin_list" [("Admin deleted successfully", "success")] ∧
      (admin_delete uid id st).2.admins = st.admins.filter (fun x => x.id != id) ∧
      (∀ b ∈ (admin_delete uid id st).2.admins, b.id ≠ id) ∧
      (∀ b ∈ st.admins, b.id ≠ id → b ∈ (admin_delete uid id st).2.admins)) := by
  have ha : a.id = id := by
    have := List.find?_some hfind
    simpa using this
  constructor
  · intro h
    subst h
    simp [admin_delete, hfind, ha]
  · intro h
    have hne : (a.id == uid) = false := by
      simp [ha, h]
    refine ⟨?_, ?_, ?_, ?_⟩
    · simp [admin_delete, hfind, hne]
    · simp [admin_delete, hfind, hne]
    · intro b hb
      simp only [admin_delete, hfind, hne] at hb
      simp only [Bool.false_eq_true, if_false, List.mem_filter] at hb
      simpa using hb.2
    · intro b hb hbne
      simp only [admin_delete, hfind, hne]
      simp only [Bool.false_eq_true, if_false, List.mem_filter]
      exact ⟨hb, by simpa using hbne⟩

/-- Witness for C3: on the two-admin state, session identity 1 cannot
delete admin 1 but does delete admin 2. -/
theorem C3_self_delete_guard_witness :
    admin_delete 1 1 stTwoAdmins
      = (.redirect "admin_list" [("You cannot delete your own account", "danger")], stTwoAdmins) ∧
    (admin_delete 1 2 stTwoAdmins).1
      = .redirect "admin_list" [("Admin deleted successfully", "success")] ∧
    (admin_delete 1 2 stTwoAdmins).2.admins
      = stTwoAdmins.admins.filter (fun x => x.id != 2) := by
  refine ⟨(C3_self_delete_guard 1 1 stTwoAdmins adminRoot (by decide)).1 rfl, ?_, ?_⟩
  · exact ((C3_self_delete_guard 1 2 stTwoAdmins adminBob (by decide)).2 (by decide)).1
  · exact ((C3_self_delete_guard 1 2 stTwoAdmins adminBob (by decide)).2 (by decide)).2.1

/-- C4: an update of an administrator or of a customer whose password field
is blank (absent or empty, hence falsy) leaves every stored password hash
exactly as it was before the update; the nodup hypothesis is the primary
key constraint of the backing tables. -/
theorem C4_blank_password_keeps_hash (st : BankState) :
    (∀ (id : Nat) (f : AdminEditForm) (salt : Nat), truthy f.password = false →
      (st.admins.map (fun a => a.id)).Nodup →
      (admin_edit id f salt st).2.admins.map (fun a => a.password)
        = st.admins.map (fun a => a.password)) ∧
    (∀ (id : Nat) (f : CustomerForm) (salt : Nat), truthy f.password = false →
      (st.customers.map (fun c => c.id)).Nodup →
      (customer_edit id f salt st).2.customers.map (fun c => c.password)
        = st.customers.map (fun c => c.password)) := by
  constructor
  · intro id f salt hpw hnodup
    unfold admin_edit
    cases hfind : st.admins.find? (fun a => a.id == id) with
    | none => rfl
    | some admin =>
      by_cases h1 : (!truthy f.username || !truthy f.email) = true
      · simp [h1]
      · simp only [h1, Bool.false_eq_true, if_false]
        by_cases h2 : otherAdminHasUsername st id (f.username.getD "") = true
        · simp [h2]
        · simp only [h2, Bool.false_eq_true, if_false]
          by_cases h3 : otherAdminHasEmail st id (f.email.getD "") = true
          · simp [h3]
          · simp only [h3, Bool.false_eq_true, if_false]
            exact map_update_proj st.admins (fun a => a.id) (fun a => a.password)
              id admin _ hfind hnodup (by simp [hpw])
  · intro id f salt hpw hnodup
    unfold customer_edit
    cases hfind : st.customers.find? (fun c => c.id == id) with
    | none => rfl
    | some customer =>
      cases hbal : pyFloat? f.balance with
      | none => rfl
      | some balance =>
        by_cases h1 : (!truthy f.full_name || !truthy f.email || !truthy f.account_type) = true
        · simp [h1]
        · simp only [h1, Bool.false_eq_true, if_false]
          by_cases h2 : (truthy f.password && f.password != f.confirm_password) = true
          · simp [h2]
          · simp only [h2, Bool.false_eq_true, if_false]
            by_cases h3 : otherCustomerHasEmail st id (f.email.getD "") = true
            · simp [h3]
            · simp only [h3, Bool.false_eq_true, if_false]
              exact map_update_proj st.customers (fun c => c.id) (fun c => c.password)
                id customer _ hfind hnodup (by simp [hpw])

/-- Witness for C4: editing the sample admin and the sample customer with a
blank password leaves the stored hash lists unchanged. -/
theorem C4_blank_password_keeps_hash_witness :
    (admin_edit 1 ⟨some "root2", some "root2@bank.example", none⟩ 21 stSample).2.admins.map
        (fun a => a.password)
      = stSample.admins.map (fun a => a.password) ∧
    (customer_edit 1 ⟨some "Jane Roe", some "jane@x.com", some "", some "", some "savings",
        some "250", some "active"⟩ 22 stSample).2.customers.map (fun c => c.password)
      = stSample.customers.map (fun c => c.password) := by
  constructor
  · exact (C4_blank_password_keeps_hash stSample).1 1 _ 21 (by decide) (by decide)
  · exact (C4_blank_password_keeps_hash stSample).2 1 _ 22 (by decide) (by decide)

/-- Counterexample to C5 as stated: this create-admin request has a
username equal to an existing administrator username, yet the operation
fails with the password-mismatch notice, not with a duplicate-key notice
naming the colliding field, because the confirmation check runs first. -/
theorem C5_counterexample :
    stTwoAdmins.admins.any (fun a => a.username == "bob") = true ∧
    admin_add ⟨some "bob", some "new@bank.example", some "a", some "b"⟩ 5 stTwoAdmins
      = (.redirect "admin_add" [("Passwords do not match", "danger")], stTwoAdmins) := by
  exact ⟨rfl, rfl⟩

/-- C5 amended: for requests that pass the earlier validations (required
fields present and password equal to its confirmation; for customers also
a parseable balance), a colliding username or email fails with the
duplicate notice naming the colliding field (username checked before email
for admins) and the state is unchanged. -/
theorem C5_duplicate_key_amended :
    (∀ (f : AdminAddForm) (salt : Nat) (st : BankState),
      truthy f.username = true → truthy f.email = true → truthy f.password = true →
      f.password = f.confirm_password →
      ((st.admins.find? (fun a => a.username == f.username.getD "")).isSome = true →
        admin_add f salt st
          = (.redirect "admin_add" [("Username already exists", "danger")], st)) ∧
      (st.admins.find? (fun a => a.username == f.username.getD "") = none →
        (st.admins.find? (fun a => a.email == f.email.getD "")).isSome = true →
        admin_add f salt st
          = (.redirect "admin_add" [("Email already exists", "danger")], st))) ∧
    (∀ (f : CustomerForm) (salt draw : Nat) (st : BankState) (b : String),
      pyFloat? f.balance = some b →
      truthy f.full_name = true → truthy f.email = true →
      truthy f.account_type = true → truthy f.password = true →
      f.password = f.confirm_password →
      (st.customers.find? (fun c => c.email == f.email.getD "")).isSome = true →
      customer_add f salt draw st
        = (.redirect "customer_add" [("Email already exists", "danger")], st)) := by
  constructor
  · intro f salt st h1 h2 h3 heq
    have hne : (f.password != f.confirm_password) = false := by
      simp [heq]
    constructor
    · intro hdup
      simp [admin_add, h1, h2, h3, hne, hdup]
    · intro hnone hdup
      simp [admin_add, h1, h2, h3, hne, hnone, hdup]
  · intro f salt draw st b hbal h1 h2 h3 h4 heq hdup
    have hne : (f.password != f.confirm_password) = false := by
      simp [heq]
    simp [customer_add, hbal, h1, h2, h3, h4, hne, hdup]

/-- Witness for the amended C5: a duplicate admin username and a duplicate
customer email on the sample state, with all earlier validations passing. -/
theorem C5_duplicate_key_amended_witness :
    admin_add ⟨some "root", some "fresh@bank.example", some "pw", some "pw"⟩ 5 stSample
      = (.redirect "admin_add" [("Username already exists", "danger")], stSample) ∧
    customer_add ⟨some "Janet", some "jane@x.com", some "pw", some "pw", some "savings",
        some "10", none⟩ 5 54321 stSample
      = (.redirect "customer_add" [("Email already exists", "danger")], stSample) := by
  constructor
  · exact (C5_duplicate_key_amended.1 ⟨some "root", some "fresh@bank.example", some "pw", some "pw"⟩
      5 stSample (by decide) (by decide) (by decide) rfl).1 (by decide)
  · exact C5_duplicate_key_amended.2 ⟨some "Janet", some "jane@x.com", some "pw", some "pw",
      some "savings", some "10", none⟩ 5 54321 stSample "10" (by decide) (by decide) (by decide)
      (by decide) (by decide) rfl (by decide)

/-- Sample state whose only administrator is not named admin. -/
def stBobOnly : BankState := ⟨[adminBob], []⟩

/-- Counterexample to C6 as stated: administrators already exist (the
admin table is nonempty), yet startup still creates the seed account,
because the source only checks for an administrator with username admin. -/
theorem C6_counterexample :
    stBobOnly.admins ≠ [] ∧
    (startup stBobOnly 9).admins.map (fun a => a.username) = ["bob", "admin"] := by
  exact ⟨by decide, rfl⟩

/-- C6 amended: the seed administrator is created exactly when no
administrator with username admin exists (in particular from a state with
zero administrators); after seeding, logging in as admin/admin123 succeeds
with role admin; when an administrator named admin already exists, startup
changes nothing. -/
theorem C6_seed_admin_amended (st : BankState) (salt : Nat) :
    (st.admins.find? (fun a => a.username == "admin") = none →
      (startup st salt).admins = st.admins ++
        [⟨nextFreeId (st.admins.map (fun a => a.id)), "admin", "admin@example.com",
          generate_password_hash "admin123" salt⟩] ∧
      login (startup st salt) "admin" "admin123"
        = (some ⟨nextFreeId (st.admins.map (fun a => a.id)), "admin", "admin"⟩,
           .redirect "admin_dashboard" [("Welcome, Admin!", "success")])) ∧
    ((st.admins.find? (fun a => a.username == "admin")).isSome = true →
      startup st salt = st) := by
  constructor
  · intro h
    have hadm : (startup st salt).admins = st.admins ++
        [⟨nextFreeId (st.admins.map (fun a => a.id)), "admin", "admin@example.com",
          generate_password_hash "admin123" salt⟩] := by
      simp [startup, h]
    refine ⟨hadm, ?_⟩
    unfold login
    rw [hadm, List.find?_append, h]
    simp [check_password_hash, generate_password_hash]
  · intro h
    cases hfa : st.admins.find? (fun a => a.username == "admin") with
    | none => rw [hfa] at h; simp at h
    | some a => simp [startup, hfa]

/-- Witness for the amended C6: seeding from the empty state creates the
account and admin/admin123 then logs in as admin; a state already holding
an administrator named admin is left unchanged. -/
theorem C6_seed_admin_amended_witness :
    (startup ⟨[], []⟩ 3).admins
      = [⟨1, "admin", "admin@example.com", generate_password_hash "admin123" 3⟩] ∧
    login (startup ⟨[], []⟩ 3) "admin" "admin123"
      = (some ⟨1, "admin", "admin"⟩,
         .redirect "admin_dashboard" [("Welcome, Admin!", "success")]) ∧
    startup ⟨[⟨1, "admin", "admin@example.com", generate_password_hash "admin123" 3⟩], []⟩ 4
      = ⟨[⟨1, "admin", "admin@example.com", generate_password_hash "admin123" 3⟩], []⟩ := by
  refine ⟨((C6_seed_admin_amended ⟨[], []⟩ 3).1 rfl).1,
    ((C6_seed_admin_amended ⟨[], []⟩ 3).1 rfl).2, ?_⟩
  exact (C6_seed_admin_amended ⟨[⟨1, "admin", "admin@example.com",
    generate_password_hash "admin123" 3⟩], []⟩ 4).2 (by decide)

/-- Success characterization of customer_add: reaching the success redirect
means the balance parsed, the generated account number collided with no
existing customer (the UNIQUE constraint at commit), and exactly the new
record was appended. -/
theorem customer_add_success (f : CustomerForm) (salt draw : Nat) (st : BankState)
    (h : (customer_add f salt draw st).1
      = .redirect "customer_list" [("Customer created successfully", "success")]) :
    pyFloat? f.balance ≠ none ∧
    st.customers.any (fun c => c.bank_account_number == "ACC" ++ toString draw) = false ∧
    ∃ c, (customer_add f salt draw st).2.customers = st.customers ++ [c] ∧
      c.bank_account_number = "ACC" ++ toString draw ∧
      c.status = some (pyOr f.status "active") := by
  unfold customer_add at h ⊢
  cases hbal : pyFloat? f.balance with
  | none =>
    rw [hbal] at h
    simp at h
  | some b =>
    rw [hbal] at h
    by_cases h1 : (!truthy f.full_name || !truthy f.email || !truthy f.account_type
        || !truthy f.password) = true
    · simp [h1] at h
    · rw [Bool.not_eq_true] at h1
      by_cases h2 : (f.password != f.confirm_password) = true
      · simp [h1, h2] at h
      · rw [Bool.not_eq_true] at h2
        by_cases h3 : (st.customers.find? (fun c => c.email == f.email.getD "")).isSome = true
        · simp [h1, h2, h3] at h
        · rw [Bool.not_eq_true] at h3
          by_cases h4 : st.customers.any (fun c => c.email == f.email.getD "") = true
          · simp [h1, h2, h3, h4] at h
          · rw [Bool.not_eq_true] at h4
            by_cases h5 : st.customers.any
                (fun c => c.bank_account_number == "ACC" ++ toString draw) = true
            · simp [h1, h2, h3, h4, h5] at h
            · rw [Bool.not_eq_true] at h5
              refine ⟨by simp [hbal], h5,
                ⟨{ id := nextFreeId (st.customers.map (fun c => c.id)),
                   full_name := f.full_name.getD "",
                   email := f.email.getD "",
                   password := generate_password_hash (f.password.getD "") salt,
                   bank_account_number := "ACC" ++ toString draw,
                   account_type := f.account_type.getD "",
                   balance := b,
                   status := some (pyOr f.status "active") }, ?_, rfl, rfl⟩⟩
              simp [hbal, h1, h2, h3, h4, h5]

/-- Valid customer-creation form for Jane. -/
def janeForm : CustomerForm :=
  ⟨some "Jane Doe", some "jane@x.com", some "pw1", some "pw1", some "savings", some "100", none⟩

/-- C7: every successful create-customer operation, over every prior
customer table and every random draw, appends a record whose generated
account number differs from every existing customer account number; a
colliding draw never reaches the success commit. -/
theorem C7_account_number_fresh (f : CustomerForm) (salt draw : Nat) (st : BankState)
    (resp : Response) (st2 : BankState)
    (h : customer_add f salt draw st = (resp, st2))
    (hsucc : resp = .redirect "customer_list" [("Customer created successfully", "success")]) :
    st.customers.any (fun c => c.bank_account_number == "ACC" ++ toString draw) = false ∧
    (customer_add f salt draw st).2.customers.length = st.customers.length + 1 := by
  have h1 : (customer_add f salt draw st).1 = resp := by rw [h]
  rw [hsucc] at h1
  obtain ⟨-, hany, c, hc1, -, -⟩ := customer_add_success f salt draw st h1
  constructor
  · exact hany
  · rw [hc1]
    simp

/-- Witness for C7: creating Jane on the empty table with draw 12345
collides with nothing and appends one record. -/
theorem C7_account_number_fresh_witness :
    (⟨[], []⟩ : BankState).customers.any
        (fun c => c.bank_account_number == "ACC" ++ toString 12345) = false ∧
    (customer_add janeForm 7 12345 ⟨[], []⟩).2.customers.length
      = (⟨[], []⟩ : BankState).customers.length + 1 := by
  exact C7_account_number_fresh janeForm 7 12345 ⟨[], []⟩ _ _ rfl rfl

/-- Customer-creation form carrying a status outside the two-value set. -/
def janeFormBanana : CustomerForm :=
  ⟨some "Jane Doe", some "jane@x.com", some "pw1", some "pw1", some "savings", some "100", some "banana"⟩

/-- Counterexample to C8 as stated: a create-customer form may carry any
status string; the persisted status is banana, outside {active, inactive},
because neither creation nor edit validates the field. -/
theorem C8_counterexample :
    (customer_add janeFormBanana 7 12345 ⟨[], []⟩).2.customers.map (fun c => c.status)
      = [some "banana"] ∧
    ("banana" == "active" || "banana" == "inactive") = false := by
  exact ⟨rfl, rfl⟩

/-- C8 amended: creation persists the form status with active as the
default for a blank field, and admin edit persists the form status
verbatim (possibly null); consequently the persisted status stays in
{active, inactive} exactly for form inputs that are blank (at creation) or
drawn from that set, not for arbitrary input. -/
theorem C8_status_amended :
    (∀ (f : CustomerForm) (salt draw : Nat) (st : BankState),
      (customer_add f salt draw st).1
          = .redirect "customer_list" [("Customer created successfully", "success")] →
      ∃ c, (customer_add f salt draw st).2.customers = st.customers ++ [c] ∧
        c.status = some (pyOr f.status "active")) ∧
    (∀ (id : Nat) (f : CustomerForm) (salt : Nat) (st : BankState),
      (customer_edit id f salt st).1
          = .redirect "customer_list" [("Customer updated successfully", "success")] →
      ∀ c ∈ (customer_edit id f salt st).2.customers, c.id = id → c.status = f.status) ∧
    (∀ o : Option String, o = none ∨ o = some "" ∨ o = some "active" ∨ o = some "inactive" →
      pyOr o "active" = "active" ∨ pyOr o "active" = "inactive") := by
  refine ⟨?_, ?_, ?_⟩
  · intro f salt draw st h
    obtain ⟨-, -, c, hc1, -, hc3⟩ := customer_add_success f salt draw st h
    exact ⟨c, hc1, hc3⟩
  · intro id f salt st h c hc hcid
    unfold customer_edit at h hc
    cases hfind : st.customers.find? (fun x => x.id == id) with
    | none => rw [hfind] at h; simp at h
    | some customer =>
      rw [hfind] at h hc
      cases hbal : pyFloat? f.balance with
      | none => rw [hbal] at h; simp at h
      | some b =>
        rw [hbal] at h hc
        by_cases h1 : (!truthy f.full_name || !truthy f.email || !truthy f.account_type) = true
        · simp [h1] at h
        · rw [Bool.not_eq_true] at h1
          by_cases h2 : (truthy f.password && f.password != f.confirm_password) = true
          · simp [h1, h2] at h
          · rw [Bool.not_eq_true] at h2
            by_cases h3 : otherCustomerHasEmail st id (f.email.getD "") = true
            · simp [h1, h2, h3] at h
            · rw [Bool.not_eq_true] at h3
              simp only [h1, h2, h3, Bool.false_eq_true, if_false, List.mem_map] at hc
              obtain ⟨a, ha, hca⟩ := hc
              by_cases hid : (a.id == id) = true
              · rw [if_pos hid] at hca
                rw [← hca]
              · rw [if_neg (by simp [hid])] at hca
                rw [← hca] at hcid
                exact absurd hcid (by simpa using hid)
  · intro o ho
    rcases ho with h | h | h | h <;> subst h <;>
      first
      | exact Or.inl (by decide)
      | exact Or.inr (by decide)

/-- Edit form switching Jane to inactive while leaving the password blank. -/
def janeEditInactive : CustomerForm :=
  ⟨some "Jane Doe", some "jane@x.com", none, none, some "savings", some "100", some "inactive"⟩

/-- The record stored for Jane after that edit. -/
def custJaneInactive : Customer :=
  ⟨1, "Jane Doe", "jane@x.com", generate_password_hash "pw1" 12, "ACC12345", "savings", "100", some "inactive"⟩

/-- Witness for the amended C8: the concrete edit of Jane with status
inactive persists exactly that status, and an in-set input stays in the
two-value set. -/
theorem C8_status_amended_witness :
    custJaneInactive.status = some "inactive" ∧
    (pyOr (some "inactive") "active" = "active" ∨ pyOr (some "inactive") "active" = "inactive") := by
  constructor
  · exact C8_status_amended.2.1 1 janeEditInactive 9 stSample rfl custJaneInactive (by decide) rfl
  · exact C8_status_amended.2.2 (some "inactive") (by simp)

/-- Customer form whose balance field is not numeric. -/
def janeFormBadBalance : CustomerForm :=
  ⟨some "Jane Doe", some "jane@x.com", some "pw1", some "pw1", some "savings", some "abc", some "active"⟩

/-- C9: the claim fails on the code: the create-customer and edit-customer
handlers evaluate float(request.form.get('balance', 0)) before any
validation, so a non-numeric balance string terminates the handler with an
unhandled ValueError instead of a redirect or a rendered form with a
notice. -/
theorem C9_nonnumeric_balance_crash :
    customer_add janeFormBadBalance 7 12345 ⟨[], []⟩
      = (.serverError "ValueError", (⟨[], []⟩ : BankState)) ∧
    customer_edit 1 janeFormBadBalance 7 stSample = (.serverError "ValueError", stSample) := by
  exact ⟨rfl, rfl⟩

/-- Counterexample to C10 as stated: this create-admin request has a
password different from its confirmation, yet it is rejected with the
required-fields notice, not the password-mismatch notice, because the
username is missing and that check runs first. -/
theorem C10_counterexample :
    (some "a" : Option String) ≠ some "b" ∧
    admin_add ⟨none, some "new@bank.example", some "a", some "b"⟩ 5 ⟨[], []⟩
      = (.redirect "admin_add" [("All fields are required", "danger")], (⟨[], []⟩ : BankState)) := by
  exact ⟨by decide, rfl⟩

/-- C10 amended: on requests whose required fields are present (and, for
customer forms, whose balance parses), a password differing from its
confirmation (for edits: a non-empty such password) is rejected with the
password-mismatch notice and no record is inserted or modified. -/
theorem C10_password_mismatch_amended :
    (∀ (f : AdminAddForm) (salt : Nat) (st : BankState),
      truthy f.username = true → truthy f.email = true → truthy f.password = true →
      f.password ≠ f.confirm_password →
      admin_add f salt st = (.redirect "admin_add" [("Passwords do not match", "danger")], st)) ∧
    (∀ (f : CustomerForm) (salt draw : Nat) (st : BankState) (b : String),
      pyFloat? f.balance = some b →
      truthy f.full_name = true → truthy f.email = true →
      truthy f.account_type = true → truthy f.password = true →
      f.password ≠ f.confirm_password →
      customer_add f salt draw st
        = (.redirect "customer_add" [("Passwords do not match", "danger")], st)) ∧
    (∀ (id : Nat) (f : CustomerForm) (salt : Nat) (st : BankState) (c : Customer) (b : String),
      st.customers.find? (fun x => x.id == id) = some c →
      pyFloat? f.balance = some b →
      truthy f.full_name = true → truthy f.email = true → truthy f.account_type = true →
      truthy f.password = true →
      f.password ≠ f.confirm_password →
      customer_edit id f salt st
        = (.redirect "customer_edit" [("Passwords do not match", "danger")], st)) := by
  refine ⟨?_, ?_, ?_⟩
  · intro f salt st h1 h2 h3 hne
    have hbne : (f.password != f.confirm_password) = true := by
      simpa using hne
    simp [admin_add, h1, h2, h3, hbne]
  · intro f salt draw st b hbal h1 h2 h3 h4 hne
    have hbne : (f.password != f.confirm_password) = true := by
      simpa using hne
    simp [customer_add, hbal, h1, h2, h3, h4, hbne]
  · intro id f salt st c b hfind hbal h1 h2 h3 h4 hne
    have hbne : (f.password != f.confirm_password) = true := by
      simpa using hne
    simp [customer_edit, hfind, hbal, h1, h2, h3, h4, hbne]

/-- Witness for the amended C10: mismatched confirmations on otherwise
valid create-admin, create-customer and edit-customer requests are all
rejected with the password-mismatch notice and leave the state as it was. -/
theorem C10_password_mismatch_amended_witness :
    admin_add ⟨some "carol", some "carol@bank.example", some "a", some "b"⟩ 5 stSample
      = (.redirect "admin_add" [("Passwords do not match", "danger")], stSample) ∧
    customer_add ⟨some "Kim", some "kim@x.com", some "a", some "b", some "savings",
        some "10", none⟩ 5 33333 stSample
      = (.redirect "customer_add" [("Passwords do not match", "danger")], stSample) ∧
    customer_edit 1 ⟨some "Jane Doe", some "jane@x.com", some "a", some "b", some "savings",
        some "100", some "active"⟩ 5 stSample
      = (.redirect "customer_edit" [("Passwords do not match", "danger")], stSample) := by
  refine ⟨?_, ?_, ?_⟩
  · exact C10_password_mismatch_amended.1 ⟨some "carol", some "carol@bank.example", some "a", some "b"⟩
      5 stSample (by decide) (by decide) (by decide) (by decide)
  · exact C10_password_mismatch_amended.2.1 ⟨some "Kim", some "kim@x.com", some "a", some "b",
      some "savings", some "10", none⟩ 5 33333 stSample "10" rfl (by decide) (by decide)
      (by decide) (by decide) (by decide)
  · exact C10_password_mismatch_amended.2.2 1 ⟨some "Jane Doe", some "jane@x.com", some "a",
      some "b", some "savings", some "100", some "active"⟩ 5 stSample custJane "100" (by decide)
      rfl (by decide) (by decide) (by decide) (by decide) (by decide)
